import Mathlib

/-!
Shallow embedding of the streaming anomaly-detection pipeline of
`backend/main.py` (ai-predictive-maintenance).

Numeric sensor values are modelled as rationals (`ℚ`).  The fitted
scikit-learn objects (`StandardScaler` + `IsolationForest`) are opaque to the
pipeline logic: what the code uses of them is only a binary inlier/outlier
verdict (`model.predict`) and a raw outlier score (`model.score_samples`) on
a single (scaled) row, so a fitted model is embedded as a pair of functions
on feature rows, and fitting (`scaler.fit_transform` + `model.fit`) as an
arbitrary function `fit : List Feature → ModelParams` supplied as a
parameter.  Everything the Python control flow does around those calls is
translated faithfully.
-/

set_option autoImplicit false

namespace PredMaint

/-- A numeric feature row, in the fixed column order used throughout
`main.py`: temperature, vibration, pressure (already coerced to a number),
power_consumption, efficiency. -/
abbrev Feature := List ℚ

/-- `SensorReading` (pydantic model, main.py lines 129-135).  `pressure` is
optional. -/
structure SensorReading where
  equipment_id : Nat
  temperature : ℚ
  vibration : ℚ
  pressure : Option ℚ
  power_consumption : ℚ
  efficiency : ℚ
deriving DecidableEq

/-- Python truthiness coercion `reading.pressure or 0` (main.py line 386):
`None` and `0.0` are both falsy, so both produce the right operand `0`. -/
def pyOrZero : Option ℚ → ℚ
  | none => 0
  | some x => if x = 0 then 0 else x

/-- SQL `COALESCE(pressure, 0)` (main.py line 370). -/
def coalesceZero : Option ℚ → ℚ
  | none => 0
  | some x => x

/-- The fitted scorer: what `record_sensor_data` consumes of the fitted
`StandardScaler` + `IsolationForest` pair.  `predictSample` is
`model.predict(scaler.transform(row))[0]` (1 = inlier, -1 = outlier) and
`scoreSample` is `model.score_samples(scaler.transform(row))[0]`. -/
structure ModelParams where
  predictSample : Feature → Int
  scoreSample : Feature → ℚ

/-- `AnomalyDetector` (main.py lines 164-201): fitted parameters plus the
`is_trained` flag.  The constructor sets `is_trained = False`. -/
structure AnomalyDetector where
  params : ModelParams
  is_trained : Bool

/-- `AnomalyDetector.train` (main.py lines 176-186): below 10 samples it
returns `False` without touching the scaler or the model; otherwise it refits
both against the data and sets `is_trained`. -/
def AnomalyDetector.train (fit : List Feature → ModelParams)
    (d : AnomalyDetector) (data : List Feature) : AnomalyDetector × Bool :=
  if data.length < 10 then
    (d, false)
  else
    ({ params := fit data, is_trained := true }, true)

/-- `AnomalyDetector.predict` (main.py lines 188-201).  Untrained: the Python
code returns the literal pair `0, 0.5`.  Trained: the binary verdict comes
from `model.predict`, and the confidence is
`max(0, min(100, (1 - abs(score)) * 100))`. -/
def AnomalyDetector.predict (d : AnomalyDetector) (row : Feature) : Int × ℚ :=
  if d.is_trained = false then
    (0, 1/2)
  else
    (d.params.predictSample row,
      max 0 (min 100 ((1 - |d.params.scoreSample row|) * 100)))

/-- A persisted `sensor_readings` row (main.py lines 359-366).  `timestamp`
is a monotone insertion counter standing in for `datetime.now().isoformat()`;
`pressure` is stored as-is (`NULL` for a missing value). -/
structure StoredReading where
  equipment_id : Nat
  timestamp : Nat
  temperature : ℚ
  vibration : ℚ
  pressure : Option ℚ
  power_consumption : ℚ
  efficiency : ℚ
deriving DecidableEq

/-- A persisted `predictions` row (main.py lines 408-415); the random 1-7 day
failure horizon is kept as the drawn day count. -/
structure PredictionRow where
  equipment_id : Nat
  timestamp : Nat
  prediction_type : String
  confidence : ℚ
  predicted_failure_days : Nat
  recommendation : String
deriving DecidableEq

/-- A persisted `alerts` row (main.py lines 421-428); `acknowledged` starts
at 0 and is not touched by the ingestion path. -/
structure AlertRow where
  equipment_id : Nat
  timestamp : Nat
  severity : String
  title : String
  description : String
deriving DecidableEq

/-- The WebSocket payload broadcast on an anomaly (main.py lines 443-448). -/
structure BroadcastEvent where
  equipment_id : Nat
  status : String
  confidence : ℚ
deriving DecidableEq

/-- The JSON body returned by `record_sensor_data` (main.py lines 450-455),
plus the list of broadcast events the call emitted. -/
structure IngestResult where
  anomaly_detected : Bool
  confidence : ℚ
  equipment_status : String
  broadcastEvents : List BroadcastEvent
deriving DecidableEq

/-- The mutable state `record_sensor_data` reads and writes: the SQLite
tables it touches plus the single module-level `anomaly_detector`
(main.py line 204).  `readings` is kept newest-first, matching
`ORDER BY timestamp DESC` over the monotone insertion timestamps. -/
structure SystemState where
  readings : List StoredReading
  predictions : List PredictionRow
  alerts : List AlertRow
  equipmentStatus : Nat → String
  equipmentName : Nat → String
  detector : AnomalyDetector

/-- The `sensor_readings` row inserted for a reading (main.py lines 359-366). -/
def storedOf (now : Nat) (reading : SensorReading) : StoredReading :=
  { equipment_id := reading.equipment_id
    timestamp := now
    temperature := reading.temperature
    vibration := reading.vibration
    pressure := reading.pressure
    power_consumption := reading.power_consumption
    efficiency := reading.efficiency }

/-- One row of the training query (main.py lines 369-376): temperature,
vibration, `COALESCE(pressure, 0)`, power_consumption, efficiency. -/
def featureRow (r : StoredReading) : Feature :=
  [r.temperature, r.vibration, coalesceZero r.pressure,
    r.power_consumption, r.efficiency]

/-- The training query (main.py lines 369-378): this equipment's readings,
newest first, `LIMIT 200`, as numeric feature rows. -/
def historicalFeatures (readings : List StoredReading) (eqId : Nat) :
    List Feature :=
  ((readings.filter (fun r => r.equipment_id = eqId)).take 200).map featureRow

/-- The detector in effect after the retrain step (main.py lines 380-382):
the single global detector is retrained on this equipment's history whenever
that history holds at least 20 rows, and left untouched otherwise. -/
def detectorAfter (fit : List Feature → ModelParams) (now : Nat)
    (st : SystemState) (reading : SensorReading) : AnomalyDetector :=
  let hist := historicalFeatures (storedOf now reading :: st.readings)
    reading.equipment_id
  if 20 ≤ hist.length then (st.detector.train fit hist).1 else st.detector

/-- The feature row scored for the current reading (main.py lines 385-388),
with the Python coercion `reading.pressure or 0`. -/
def currentFeatures (reading : SensorReading) : Feature :=
  [reading.temperature, reading.vibration, pyOrZero reading.pressure,
    reading.power_consumption, reading.efficiency]

/-- The verdict produced for a reading ingested in state `st`
(main.py line 390): the possibly-just-retrained global detector applied to
the current feature row. -/
def scoreVerdict (fit : List Feature → ModelParams) (now : Nat)
    (st : SystemState) (reading : SensorReading) : Int × ℚ :=
  (detectorAfter fit now st reading).predict (currentFeatures reading)

/-- Rule messages of `generate_recommendation` (main.py lines 461-474). -/
def tempMsg : String := "Temperature exceeds normal range. Check cooling system."

def vibMsg : String := "High vibration detected. Inspect bearings and alignment."

def pressMsg : String := "Pressure levels elevated. Check seals and valves."

def effMsg : String := "Efficiency below optimal. Schedule maintenance."

def criticalFallback : String :=
  "Multiple parameters show concerning trends. Immediate inspection recommended."

def warningFallback : String := "Minor deviation detected. Monitor closely."

/-- The condition `reading.pressure and reading.pressure > 140`
(main.py line 465): Python `and` short-circuits on a falsy left operand, and
both `None` and `0.0` are falsy. -/
def pressureRuleFires : Option ℚ → Bool
  | none => false
  | some x => if x = 0 then false else decide (140 < x)

/-- `generate_recommendation` (main.py lines 457-476): the four univariate
rules fire independently in fixed order, firing messages are space-joined,
and an empty rule list falls back to a severity-keyed generic message. -/
def generate_recommendation (reading : SensorReading) (status : String) :
    String :=
  let recs : List String :=
    (if 80 < reading.temperature then [tempMsg] else []) ++
    (if 7 < reading.vibration then [vibMsg] else []) ++
    (if pressureRuleFires reading.pressure then [pressMsg] else []) ++
    (if reading.efficiency < 80 then [effMsg] else [])
  let recs : List String :=
    if recs = [] then
      if status = "critical" then [criticalFallback] else [warningFallback]
    else recs
  String.intercalate " " recs

/-- `record_sensor_data` (main.py lines 350-455): insert the raw reading,
retrain the global detector if this equipment's history reached 20 rows,
score the current reading, and on an outlier verdict (`prediction == -1`)
write a prediction row, an alert row (severity critical above confidence 85,
warning otherwise), update the equipment status and broadcast an alert
event; otherwise change nothing else.  `now` stands for `datetime.now()`
and `rd` for `random.randint(1, 7)`. -/
def record_sensor_data (fit : List Feature → ModelParams) (now rd : Nat)
    (st : SystemState) (reading : SensorReading) :
    SystemState × IngestResult :=
  let readings := storedOf now reading :: st.readings
  let detector := detectorAfter fit now st reading
  let pc := scoreVerdict fit now st reading
  if pc.1 = -1 then
    let status := if 85 < pc.2 then "critical" else "warning"
    let recommendation := generate_recommendation reading status
    ({ readings := readings
       predictions :=
         { equipment_id := reading.equipment_id
           timestamp := now
           prediction_type := "anomaly_detected"
           confidence := pc.2
           predicted_failure_days := rd
           recommendation := recommendation } :: st.predictions
       alerts :=
         { equipment_id := reading.equipment_id
           timestamp := now
           severity := status
           title := st.equipmentName reading.equipment_id ++ " - Anomaly Detected"
           description := "AI detected unusual patterns. " ++ recommendation }
           :: st.alerts
       equipmentStatus := fun i =>
         if i = reading.equipment_id then status else st.equipmentStatus i
       equipmentName := st.equipmentName
       detector := detector },
     { anomaly_detected := true
       confidence := pc.2
       equipment_status := status
       broadcastEvents := [⟨reading.equipment_id, status, pc.2⟩] })
  else
    ({ st with readings := readings, detector := detector },
     { anomaly_detected := false
       confidence := pc.2
       equipment_status := "healthy"
       broadcastEvents := [] })

/-! Concrete fixtures used by witnesses and counterexamples. -/

/-- A concrete fitted scorer: every row an inlier (`predict = 1`), raw
score 0. -/
def paramsInlier : ModelParams := ⟨fun _ => 1, fun _ => 0⟩

/-- A concrete fitted scorer: every row an outlier (`predict = -1`), raw
score 0. -/
def paramsOutlier : ModelParams := ⟨fun _ => -1, fun _ => 0⟩

/-- A concrete stand-in for `scaler.fit_transform` + `model.fit`. -/
def fitInlier : List Feature → ModelParams := fun _ => paramsInlier

/-- The freshly constructed module-level detector: `is_trained = False`. -/
def detector0 : AnomalyDetector := ⟨paramsInlier, false⟩

/-- A detector already fitted to parameters flagging everything anomalous. -/
def detectorTrained : AnomalyDetector := ⟨paramsOutlier, true⟩

/-- A concrete in-range reading for equipment 1. -/
def readingNormal : SensorReading := ⟨1, 70, 3, some 120, 85, 92⟩

/-- A persisted baseline row for equipment 1 (temperature 70, vibration 3,
no pressure sensor, power 85, efficiency 92). -/
def row1 : StoredReading := ⟨1, 0, 70, 3, none, 85, 92⟩

/-- A reading for equipment 1 matching `row1`. -/
def readingEq1 : SensorReading := ⟨1, 70, 3, none, 85, 92⟩

/-- The same physical quantities submitted for equipment 2. -/
def readingEq2 : SensorReading := ⟨2, 70, 3, none, 85, 92⟩

/-- Like `readingEq1` but with pressure exactly 0.0 instead of absent. -/
def readingP0 : SensorReading := ⟨1, 70, 3, some 0, 85, 92⟩

/-- The system right after seeding: empty tables, untrained detector. -/
def stEmpty : SystemState :=
  { readings := []
    predictions := []
    alerts := []
    equipmentStatus := fun _ => "healthy"
    equipmentName := fun _ => "Hydraulic Press #1"
    detector := detector0 }

/-- A state whose global detector is already trained (and flags every row
anomalous with raw score 0). -/
def stTrainedAnom : SystemState := { stEmpty with detector := detectorTrained }

/-- A state holding 9 persisted baseline rows for equipment 1. -/
def st9 : SystemState := { stEmpty with readings := List.replicate 9 row1 }

/-- A state holding 19 persisted baseline rows for equipment 1. -/
def st19 : SystemState := { stEmpty with readings := List.replicate 19 row1 }

/-! The WebSocket fanout (`ConnectionManager`, main.py lines 207-232). -/

/-- A live observer in `active_connections`; `sendOk` says whether its
`send_json` succeeds or raises during the broadcast pass. -/
structure Observer where
  oid : Nat
  sendOk : Bool
deriving DecidableEq

/-- The `await connection.send_json(message)` call guarded by
`try`/`except` (main.py lines 224-228). -/
def trySend (c : Observer) : Except Unit Unit :=
  if c.sendOk then Except.ok () else Except.error ()

/-- Python `list.remove(connection)` (main.py line 232): drop the first
occurrence of the value. -/
def removeFirst : List Observer → Observer → List Observer
  | [], _ => []
  | x :: xs, c => if x = c then xs else x :: removeFirst xs c

/-- One iteration of the broadcast loop (main.py lines 223-228): a
successful send delivers to the observer, an exception appends it to
`disconnected`. -/
def broadcastStep (acc : List Observer × List Observer) (c : Observer) :
    List Observer × List Observer :=
  match trySend c with
  | Except.ok _ => (acc.1 ++ [c], acc.2)
  | Except.error _ => (acc.1, acc.2 ++ [c])

/-- `ConnectionManager.broadcast` (main.py lines 220-232): iterate over the
registry delivering to each observer and collecting failures, then — only
after the pass completes — remove each failed observer from the registry.
Returns (delivered, disconnected, new registry); the fold never escapes, so
no send failure reaches the caller. -/
def broadcastPass (conns : List Observer) :
    List Observer × List Observer × List Observer :=
  let acc := conns.foldl broadcastStep ([], [])
  (acc.1, acc.2, acc.2.foldl removeFirst conns)

/-- Observers for the concrete three-connection scenario: the second one
fails on send. -/
def obs1 : Observer := ⟨1, true⟩

def obs2 : Observer := ⟨2, false⟩

def obs3 : Observer := ⟨3, true⟩

/-! Helper lemmas about the pipeline, shared across the development. -/

/-- When the history gate is met, the detector after the retrain step is the
freshly fitted one: 20 history rows also clear `train`'s internal minimum of
10, so the fit is never skipped there. -/
theorem detectorAfter_of_ge (fit : List Feature → ModelParams) (now : Nat)
    (st : SystemState) (reading : SensorReading)
    (h : 20 ≤ (historicalFeatures (storedOf now reading :: st.readings)
      reading.equipment_id).length) :
    detectorAfter fit now st reading =
      { params := fit (historicalFeatures (storedOf now reading :: st.readings)
          reading.equipment_id)
        is_trained := true } := by
  unfold detectorAfter
  rw [if_pos h]
  unfold AnomalyDetector.train
  rw [if_neg (by omega)]

/-- Below the history gate the global detector is left untouched. -/
theorem detectorAfter_of_lt (fit : List Feature → ModelParams) (now : Nat)
    (st : SystemState) (reading : SensorReading)
    (h : ¬ 20 ≤ (historicalFeatures (storedOf now reading :: st.readings)
      reading.equipment_id).length) :
    detectorAfter fit now st reading = st.detector := by
  unfold detectorAfter
  rw [if_neg h]

/-- The detector stored back by an ingestion is exactly the post-retrain
detector, on both branches. -/
theorem record_detector (fit : List Feature → ModelParams) (now rd : Nat)
    (st : SystemState) (reading : SensorReading) :
    (record_sensor_data fit now rd st reading).1.detector
      = detectorAfter fit now st reading := by
  simp only [record_sensor_data]
  split <;> rfl

/-- Every ingestion prepends exactly the stored row, on both branches. -/
theorem record_readings (fit : List Feature → ModelParams) (now rd : Nat)
    (st : SystemState) (reading : SensorReading) :
    (record_sensor_data fit now rd st reading).1.readings
      = storedOf now reading :: st.readings := by
  simp only [record_sensor_data]
  split <;> rfl

/-- The confidence reported by an ingestion is the verdict's confidence, on
both branches. -/
theorem record_confidence (fit : List Feature → ModelParams) (now rd : Nat)
    (st : SystemState) (reading : SensorReading) :
    (record_sensor_data fit now rd st reading).2.confidence
      = (scoreVerdict fit now st reading).2 := by
  simp only [record_sensor_data]
  split <;> rfl

/-- Every baseline row belongs to equipment 1, so the history filter keeps
all of them. -/
theorem filter_replicate_row1 (n : Nat) :
    (List.replicate n row1).filter (fun r => r.equipment_id = 1)
      = List.replicate n row1 := by
  apply List.filter_eq_self.mpr
  intro a ha
  rw [List.eq_of_mem_replicate ha]
  rfl

/-- No baseline row belongs to equipment 2, so the history filter for
equipment 2 drops all of them. -/
theorem filter_replicate_row1_eq2 (n : Nat) :
    (List.replicate n row1).filter (fun r => r.equipment_id = 2) = [] := by
  rw [List.filter_eq_nil_iff]
  intro a ha
  rw [List.eq_of_mem_replicate ha]
  decide

/-- History size for equipment 1 after ingesting on top of `n` baseline
rows: all `n + 1` rows pass the filter and stay under the 200-row cap. -/
theorem histLen_row1 (now n : Nat) (hn : n ≤ 199) :
    (historicalFeatures (storedOf now readingEq1 :: List.replicate n row1)
      1).length = n + 1 := by
  unfold historicalFeatures
  rw [List.filter_cons_of_pos (by rfl), filter_replicate_row1,
    List.length_map, List.length_take, List.length_cons, List.length_replicate]
  omega

/-- The equipment-2 history over baseline rows of equipment 1 is just the
fresh equipment-2 row. -/
theorem histFeatures_eq2_cons (now : Nat) (l : List StoredReading)
    (hl : l.filter (fun r => r.equipment_id = 2) = []) :
    historicalFeatures (storedOf now readingEq2 :: l) 2
      = [featureRow (storedOf now readingEq2)] := by
  unfold historicalFeatures
  rw [List.filter_cons_of_pos (by rfl), hl]
  rfl

/-- Neither the fresh equipment-1 row nor the baseline rows belong to
equipment 2. -/
theorem filter_eq2_cons_row1 (now : Nat) :
    (storedOf now readingEq1 :: List.replicate 19 row1).filter
      (fun r => r.equipment_id = 2) = [] := by
  rw [List.filter_eq_nil_iff]
  intro a ha
  rcases List.mem_cons.mp ha with h | h
  · subst h
    show ¬ (decide ((1 : Nat) = 2) = true)
    decide
  · rw [List.eq_of_mem_replicate h]
    decide

/-! Claim theorems. -/

/-- C1, counterexample: on an untrained detector the Python code returns the
pair `0, 0.5`, so the reported confidence is 0.5, not the claimed 50, at the
concrete feature row `[95, 9, 150, 85, 60]`. -/
theorem untrained_confidence_not_fifty :
    detector0.is_trained = false ∧
    (detector0.predict [95, 9, 150, 85, 60]).1 ≠ -1 ∧
    (detector0.predict [95, 9, 150, 85, 60]).2 ≠ 50 := by
  refine ⟨rfl, ?_, ?_⟩ <;> norm_num [AnomalyDetector.predict, detector0]

/-- C1, amended: while `is_trained` is false, `predict` returns the neutral
verdict `(0, 0.5)` for every feature row — the anomalous flag is false
(`0 ≠ -1`) and the reported confidence is 0.5 (not 50). -/
theorem untrained_predict_neutral (d : AnomalyDetector) (row : Feature)
    (h : d.is_trained = false) :
    d.predict row = (0, 1/2) ∧ (d.predict row).1 ≠ -1 := by
  have hp : d.predict row = (0, 1/2) := by
    simp [AnomalyDetector.predict, h]
  exact ⟨hp, by rw [hp]; decide⟩

/-- C1 witness: the amended statement instantiated on the fresh detector and
a concrete in-range feature row. -/
theorem untrained_predict_neutral_witness :
    detector0.is_trained = false ∧
    detector0.predict [70, 3, 0, 85, 92] = (0, 1/2) :=
  ⟨rfl, (untrained_predict_neutral detector0 [70, 3, 0, 85, 92] rfl).1⟩

/-- C6: `train` on fewer than 10 samples is a no-op — it returns the pair
`(unchanged detector, false)`, so neither the scorer parameters nor
`is_trained` change. -/
theorem train_below_threshold_noop (fit : List Feature → ModelParams)
    (d : AnomalyDetector) (data : List Feature) (h : data.length < 10) :
    d.train fit data = (d, false) ∧
    (d.train fit data).1.is_trained = d.is_trained := by
  have ht : d.train fit data = (d, false) := by
    simp [AnomalyDetector.train, h]
  exact ⟨ht, by rw [ht]⟩

/-- C6 witness: training the untrained detector on a single sample returns
it unchanged with result `false`, and `is_trained` stays false. -/
theorem train_below_threshold_noop_witness :
    ([[70, 3, 0, 85, 92]] : List Feature).length < 10 ∧
    detector0.train fitInlier [[70, 3, 0, 85, 92]] = (detector0, false) ∧
    detector0.is_trained = false :=
  ⟨by decide,
    (train_below_threshold_noop fitInlier detector0 [[70, 3, 0, 85, 92]]
      (by decide)).1, rfl⟩

/-- C8: on a trained detector the confidence equals
`max 0 (min 100 ((1 - |raw_score|) * 100))`, hence lies in `[0, 100]`, and
the anomalous flag is the scorer's separate binary verdict
`predictSample row`, not a function of the confidence. -/
theorem trained_confidence_clamp (d : AnomalyDetector) (row : Feature)
    (h : d.is_trained = true) :
    (d.predict row).2
        = max 0 (min 100 ((1 - |d.params.scoreSample row|) * 100)) ∧
    0 ≤ (d.predict row).2 ∧ (d.predict row).2 ≤ 100 ∧
    (d.predict row).1 = d.params.predictSample row := by
  have hp : d.predict row = (d.params.predictSample row,
      max 0 (min 100 ((1 - |d.params.scoreSample row|) * 100))) := by
    simp [AnomalyDetector.predict, h]
  refine ⟨by rw [hp], ?_, ?_, by rw [hp]⟩
  · rw [hp]
    exact le_max_left 0 _
  · rw [hp]
    exact max_le (by norm_num) (min_le_left 100 _)

/-- C8 witness: on the concretely fitted detector (raw score 0, outlier
verdict) the clamp formula evaluates to confidence 100 and the flag to -1. -/
theorem trained_confidence_clamp_witness :
    detectorTrained.is_trained = true ∧
    (detectorTrained.predict [70, 3, 0, 85, 92]).2 = 100 ∧
    (detectorTrained.predict [70, 3, 0, 85, 92]).1 = -1 := by
  have h := trained_confidence_clamp detectorTrained [70, 3, 0, 85, 92] rfl
  refine ⟨rfl, ?_, ?_⟩
  · rw [h.1]
    norm_num [detectorTrained, paramsOutlier]
  · rw [h.2.2.2]
    simp [detectorTrained, paramsOutlier]

/-- C4: classification of a verdict is deterministic — an outlier verdict
(`prediction = -1`) with confidence above 85 yields status critical, a
critical-severity alert, a prediction row and an alert broadcast; an outlier
verdict with confidence at most 85 yields the same with warning; a
non-outlier verdict yields status healthy with no alert, no prediction, no
status transition and no broadcast. -/
theorem classify_thresholds (fit : List Feature → ModelParams) (now rd : Nat)
    (st : SystemState) (reading : SensorReading)
    (pc : Int × ℚ) (out : SystemState × IngestResult)
    (hpc : pc = scoreVerdict fit now st reading)
    (hout : out = record_sensor_data fit now rd st reading) :
    (pc.1 = -1 → 85 < pc.2 →
        out.2.equipment_status = "critical" ∧
        out.1.equipmentStatus reading.equipment_id = "critical" ∧
        out.1.alerts.head?.map AlertRow.severity = some "critical" ∧
        out.1.predictions.length = st.predictions.length + 1 ∧
        out.2.broadcastEvents = [⟨reading.equipment_id, "critical", pc.2⟩]) ∧
    (pc.1 = -1 → pc.2 ≤ 85 →
        out.2.equipment_status = "warning" ∧
        out.1.equipmentStatus reading.equipment_id = "warning" ∧
        out.1.alerts.head?.map AlertRow.severity = some "warning" ∧
        out.1.predictions.length = st.predictions.length + 1 ∧
        out.2.broadcastEvents = [⟨reading.equipment_id, "warning", pc.2⟩]) ∧
    (pc.1 ≠ -1 →
        out.2.equipment_status = "healthy" ∧
        out.1.alerts = st.alerts ∧
        out.1.predictions = st.predictions ∧
        out.1.equipmentStatus = st.equipmentStatus ∧
        out.2.broadcastEvents = []) := by
  subst hpc hout
  refine ⟨?_, ?_, ?_⟩
  · intro h1 h2
    simp [record_sensor_data, h1, h2]
  · intro h1 h2
    simp [record_sensor_data, h1, not_lt.mpr h2]
  · intro h1
    simp [record_sensor_data, h1]

/-- C4 witness: in a state whose trained detector flags everything anomalous
with raw score 0 (confidence 100 > 85), ingesting a reading yields the
critical classification. -/
theorem classify_thresholds_witness :
    (scoreVerdict fitInlier 0 stTrainedAnom readingNormal).1 = -1 ∧
    85 < (scoreVerdict fitInlier 0 stTrainedAnom readingNormal).2 ∧
    (record_sensor_data fitInlier 0 3 stTrainedAnom readingNormal).2.equipment_status
      = "critical" ∧
    (record_sensor_data fitInlier 0 3 stTrainedAnom readingNormal).1.equipmentStatus 1
      = "critical" := by
  have hside : ¬ 20 ≤ (historicalFeatures
      (storedOf 0 readingNormal :: stTrainedAnom.readings)
      readingNormal.equipment_id).length := by
    simp [historicalFeatures, stTrainedAnom, stEmpty, storedOf, readingNormal]
  have hv : scoreVerdict fitInlier 0 stTrainedAnom readingNormal = (-1, 100) := by
    unfold scoreVerdict
    rw [detectorAfter_of_lt fitInlier 0 stTrainedAnom readingNormal hside]
    norm_num [AnomalyDetector.predict, stTrainedAnom, detectorTrained, paramsOutlier]
  have h := (classify_thresholds fitInlier 0 3 stTrainedAnom readingNormal
    (scoreVerdict fitInlier 0 stTrainedAnom readingNormal)
    (record_sensor_data fitInlier 0 3 stTrainedAnom readingNormal) rfl rfl).1
    (by rw [hv]) (by rw [hv]; norm_num)
  exact ⟨by rw [hv], by rw [hv]; norm_num, h.1, h.2.1⟩

/-- C7: when the verdict is not anomalous, ingestion leaves the equipment
status map, the alerts table and the predictions table unchanged, emits no
broadcast event, and reports no anomaly. -/
theorem no_anomaly_frame (fit : List Feature → ModelParams) (now rd : Nat)
    (st : SystemState) (reading : SensorReading)
    (h : (scoreVerdict fit now st reading).1 ≠ -1) :
    (record_sensor_data fit now rd st reading).1.equipmentStatus
        = st.equipmentStatus ∧
    (record_sensor_data fit now rd st reading).1.alerts = st.alerts ∧
    (record_sensor_data fit now rd st reading).1.predictions = st.predictions ∧
    (record_sensor_data fit now rd st reading).2.broadcastEvents = [] ∧
    (record_sensor_data fit now rd st reading).2.anomaly_detected = false := by
  simp [record_sensor_data, h]

/-- C7 witness: ingesting a reading into the fresh untrained system (verdict
`(0, 0.5)`, not anomalous) changes neither status nor alerts nor
predictions. -/
theorem no_anomaly_frame_witness :
    (scoreVerdict fitInlier 0 stEmpty readingNormal).1 ≠ -1 ∧
    (record_sensor_data fitInlier 0 3 stEmpty readingNormal).1.alerts
      = stEmpty.alerts ∧
    (record_sensor_data fitInlier 0 3 stEmpty readingNormal).1.equipmentStatus
      = stEmpty.equipmentStatus ∧
    (record_sensor_data fitInlier 0 3 stEmpty readingNormal).2.anomaly_detected
      = false := by
  have hside : ¬ 20 ≤ (historicalFeatures
      (storedOf 0 readingNormal :: stEmpty.readings)
      readingNormal.equipment_id).length := by
    simp [historicalFeatures, stEmpty, storedOf, readingNormal]
  have hv : scoreVerdict fitInlier 0 stEmpty readingNormal = (0, 1/2) := by
    unfold scoreVerdict
    rw [detectorAfter_of_lt fitInlier 0 stEmpty readingNormal hside]
    rfl
  have h0 : (scoreVerdict fitInlier 0 stEmpty readingNormal).1 ≠ -1 := by
    rw [hv]
    decide
  have h := no_anomaly_frame fitInlier 0 3 stEmpty readingNormal h0
  exact ⟨h0, h.2.1, h.1, h.2.2.2.2⟩

/-- C3 counterexample: with 9 prior rows for equipment 1, ingesting a tenth
sample makes the window hold exactly 10 rows — the claimed minimum — yet the
pipeline does not retrain: the gate in `record_sensor_data` is 20, so the
detector is returned untouched and `is_trained` stays false. -/
theorem retrain_skipped_at_ten :
    (historicalFeatures (storedOf 50 readingEq1 :: st9.readings) 1).length = 10 ∧
    (record_sensor_data fitInlier 50 3 st9 readingEq1).1.detector = st9.detector ∧
    (record_sensor_data fitInlier 50 3 st9 readingEq1).1.detector.is_trained
      = false := by
  have hlen : (historicalFeatures (storedOf 50 readingEq1 :: st9.readings) 1).length
      = 10 := histLen_row1 50 9 (by omega)
  have hid : readingEq1.equipment_id = 1 := rfl
  have hd : (record_sensor_data fitInlier 50 3 st9 readingEq1).1.detector
      = st9.detector := by
    rw [record_detector]
    apply detectorAfter_of_lt
    rw [hid, hlen]
    omega
  exact ⟨hlen, hd, by rw [hd]; rfl⟩

/-- C3 amended: the retrain gate in the ingestion pipeline is 20 stored rows
for the equipment (not 10, which is only `train`'s internal minimum); once
the history holds at least 20 rows, every single ingested sample retrains the
model on the current history with no further gate or cooldown. -/
theorem retrain_gate_twenty (fit : List Feature → ModelParams) (now rd : Nat)
    (st : SystemState) (reading : SensorReading)
    (h : 20 ≤ (historicalFeatures (storedOf now reading :: st.readings)
      reading.equipment_id).length) :
    (record_sensor_data fit now rd st reading).1.detector =
      { params := fit (historicalFeatures (storedOf now reading :: st.readings)
          reading.equipment_id)
        is_trained := true } := by
  rw [record_detector]
  exact detectorAfter_of_ge fit now st reading h

/-- C3 witness: with 19 prior rows for equipment 1 the 20th sample meets the
gate and the stored detector comes back trained. -/
theorem retrain_gate_twenty_witness :
    20 ≤ (historicalFeatures (storedOf 100 readingEq1 :: st19.readings)
      readingEq1.equipment_id).length ∧
    (record_sensor_data fitInlier 100 3 st19 readingEq1).1.detector.is_trained
      = true := by
  have hlen : (historicalFeatures (storedOf 100 readingEq1 :: st19.readings)
      readingEq1.equipment_id).length = 20 := histLen_row1 100 19 (by omega)
  have h20 : 20 ≤ (historicalFeatures (storedOf 100 readingEq1 :: st19.readings)
      readingEq1.equipment_id).length := by
    rw [hlen]
  have h := retrain_gate_twenty fitInlier 100 3 st19 readingEq1 h20
  exact ⟨h20, by rw [h]⟩

/-- C2 counterexample: the detector is a single module-level object, not one
per equipment.  Starting from 19 baseline rows for equipment 1 and none for
equipment 2, ingesting one more equipment-1 sample trains the global model;
a subsequent identical equipment-2 sample is then scored by that trained
model (confidence 100) instead of the untrained neutral verdict
(confidence 0.5) it receives without the equipment-1 ingestion — so training
on one unit's samples changes the scorer used for another unit. -/
theorem shared_model_cross_equipment :
    ((record_sensor_data fitInlier 101 3
        (record_sensor_data fitInlier 100 3 st19 readingEq1).1 readingEq2).2).confidence
      ≠ ((record_sensor_data fitInlier 101 3 st19 readingEq2).2).confidence := by
  have hlenA : (historicalFeatures (storedOf 100 readingEq1 :: st19.readings)
      readingEq1.equipment_id).length = 20 := histLen_row1 100 19 (by omega)
  have hdetA : (record_sensor_data fitInlier 100 3 st19 readingEq1).1.detector
      = ⟨paramsInlier, true⟩ := by
    rw [record_detector, detectorAfter_of_ge fitInlier 100 st19 readingEq1
      (by rw [hlenA])]
    rfl
  have hreadA : (record_sensor_data fitInlier 100 3 st19 readingEq1).1.readings
      = storedOf 100 readingEq1 :: List.replicate 19 row1 :=
    record_readings fitInlier 100 3 st19 readingEq1
  have hlenB : (historicalFeatures (storedOf 101 readingEq2 ::
      (record_sensor_data fitInlier 100 3 st19 readingEq1).1.readings)
      readingEq2.equipment_id).length = 1 := by
    rw [hreadA]
    show (historicalFeatures (storedOf 101 readingEq2 ::
      storedOf 100 readingEq1 :: List.replicate 19 row1) 2).length = 1
    rw [histFeatures_eq2_cons 101 _ (filter_eq2_cons_row1 100)]
    rfl
  have hvB : (scoreVerdict fitInlier 101
      (record_sensor_data fitInlier 100 3 st19 readingEq1).1 readingEq2) = (1, 100) := by
    unfold scoreVerdict
    rw [detectorAfter_of_lt _ _ _ _ (by rw [hlenB]; omega), hdetA]
    norm_num [AnomalyDetector.predict, paramsInlier]
  have hlenC : (historicalFeatures (storedOf 101 readingEq2 :: st19.readings)
      readingEq2.equipment_id).length = 1 := by
    show (historicalFeatures (storedOf 101 readingEq2 ::
      List.replicate 19 row1) 2).length = 1
    rw [histFeatures_eq2_cons 101 _ (filter_replicate_row1_eq2 19)]
    rfl
  have hvC : scoreVerdict fitInlier 101 st19 readingEq2 = (0, 1/2) := by
    unfold scoreVerdict
    rw [detectorAfter_of_lt _ _ _ _ (by rw [hlenC]; omega)]
    rfl
  rw [record_confidence, record_confidence, hvB, hvC]
  norm_num

/-- C2 amended: the code keeps one global detector shared by every
equipment unit.  After an ingestion for equipment `r1` that meets the
retrain gate, a subsequent reading `r2` of any equipment that is below the
gate is scored by the model fitted to `r1`'s history — per-equipment model
isolation is a spec mandate the code does not implement. -/
theorem global_detector_shared (fit : List Feature → ModelParams)
    (now1 rd1 now2 : Nat) (st : SystemState) (r1 r2 : SensorReading)
    (h1 : 20 ≤ (historicalFeatures (storedOf now1 r1 :: st.readings)
      r1.equipment_id).length)
    (h2 : ¬ 20 ≤ (historicalFeatures (storedOf now2 r2 ::
      (record_sensor_data fit now1 rd1 st r1).1.readings)
      r2.equipment_id).length) :
    scoreVerdict fit now2 (record_sensor_data fit now1 rd1 st r1).1 r2
      = AnomalyDetector.predict
          ⟨fit (historicalFeatures (storedOf now1 r1 :: st.readings)
            r1.equipment_id), true⟩
          (currentFeatures r2) := by
  unfold scoreVerdict
  rw [detectorAfter_of_lt _ _ _ _ h2, record_detector,
    detectorAfter_of_ge fit now1 st r1 h1]

/-- C2 witness: the amended statement instantiated on the 19-baseline-row
state — the equipment-2 reading is scored by the model trained on
equipment 1's history, yielding confidence 100. -/
theorem global_detector_shared_witness :
    20 ≤ (historicalFeatures (storedOf 100 readingEq1 :: st19.readings)
      readingEq1.equipment_id).length ∧
    ¬ 20 ≤ (historicalFeatures (storedOf 101 readingEq2 ::
      (record_sensor_data fitInlier 100 3 st19 readingEq1).1.readings)
      readingEq2.equipment_id).length ∧
    (scoreVerdict fitInlier 101
      (record_sensor_data fitInlier 100 3 st19 readingEq1).1 readingEq2).2 = 100 := by
  have hlenA : (historicalFeatures (storedOf 100 readingEq1 :: st19.readings)
      readingEq1.equipment_id).length = 20 := histLen_row1 100 19 (by omega)
  have hreadA : (record_sensor_data fitInlier 100 3 st19 readingEq1).1.readings
      = storedOf 100 readingEq1 :: List.replicate 19 row1 :=
    record_readings fitInlier 100 3 st19 readingEq1
  have hlenB : (historicalFeatures (storedOf 101 readingEq2 ::
      (record_sensor_data fitInlier 100 3 st19 readingEq1).1.readings)
      readingEq2.equipment_id).length = 1 := by
    rw [hreadA]
    show (historicalFeatures (storedOf 101 readingEq2 ::
      storedOf 100 readingEq1 :: List.replicate 19 row1) 2).length = 1
    rw [histFeatures_eq2_cons 101 _ (filter_eq2_cons_row1 100)]
    rfl
  have h1 : 20 ≤ (historicalFeatures (storedOf 100 readingEq1 :: st19.readings)
      readingEq1.equipment_id).length := by
    rw [hlenA]
  have h2 : ¬ 20 ≤ (historicalFeatures (storedOf 101 readingEq2 ::
      (record_sensor_data fitInlier 100 3 st19 readingEq1).1.readings)
      readingEq2.equipment_id).length := by
    rw [hlenB]
    omega
  have h := global_detector_shared fitInlier 100 3 101 st19 readingEq1 readingEq2 h1 h2
  refine ⟨h1, h2, ?_⟩
  rw [h]
  norm_num [AnomalyDetector.predict, fitInlier, paramsInlier]

/-! Broadcast-pass helper lemmas. -/

/-- The broadcast fold appends the succeeding observers to the delivered
accumulator and the failing ones to `disconnected`, in registry order. -/
theorem foldl_broadcastStep (conns : List Observer) (a b : List Observer) :
    conns.foldl broadcastStep (a, b)
      = (a ++ conns.filter (fun c => c.sendOk),
         b ++ conns.filter (fun c => !c.sendOk)) := by
  induction conns generalizing a b with
  | nil => simp
  | cons x xs ih =>
    by_cases hx : x.sendOk
    · simp [List.foldl_cons, broadcastStep, trySend, hx, ih, List.filter_cons]
    · simp [List.foldl_cons, broadcastStep, trySend, hx, ih, List.filter_cons]

/-- Removing values that are not the head commutes with keeping the head. -/
theorem foldl_removeFirst_not_mem (d : List Observer) (x : Observer)
    (l : List Observer) (hx : x ∉ d) :
    d.foldl removeFirst (x :: l) = x :: d.foldl removeFirst l := by
  induction d generalizing l with
  | nil => rfl
  | cons c cs ih =>
    have hcx : ¬ (x = c) := fun h => hx (by rw [h]; exact List.mem_cons_self c cs)
    have hstep : removeFirst (x :: l) c = x :: removeFirst l c := by
      simp [removeFirst, hcx]
    simp only [List.foldl_cons, hstep]
    exact ih (removeFirst l c) (fun h => hx (List.mem_cons_of_mem c h))

/-- On a duplicate-free registry, removing the collected failing observers
one by one leaves exactly the succeeding ones, in order. -/
theorem foldl_removeFirst_filter (l : List Observer) (hnd : l.Nodup) :
    (l.filter (fun c => !c.sendOk)).foldl removeFirst l
      = l.filter (fun c => c.sendOk) := by
  induction l with
  | nil => rfl
  | cons x xs ih =>
    have hx : x ∉ xs := (List.nodup_cons.mp hnd).1
    have hnd2 := (List.nodup_cons.mp hnd).2
    by_cases hs : x.sendOk
    · have hxf : x ∉ xs.filter (fun c => !c.sendOk) :=
        fun h => hx (List.mem_of_mem_filter h)
      rw [List.filter_cons_of_neg (by simp [hs]),
        List.filter_cons_of_pos (by simp [hs]),
        foldl_removeFirst_not_mem _ _ _ hxf, ih hnd2]
    · have hstep : removeFirst (x :: xs) x = xs := by
        simp [removeFirst]
      rw [List.filter_cons_of_pos (by simp [hs]),
        List.filter_cons_of_neg (by simp [hs]), List.foldl_cons, hstep, ih hnd2]

/-- C5: a broadcast pass attempts delivery to every observer registered at
its start (each one ends up delivered-to or collected as failed), failing
observers are removed from the registry only after the pass completes (the
new registry is exactly the succeeding observers, in order, and delivered
plus failed counts exhaust the registry), and no send failure escapes to the
caller. -/
theorem broadcast_attempts_all_prunes_failures (conns : List Observer)
    (hnd : conns.Nodup) :
    (broadcastPass conns).1 = conns.filter (fun c => c.sendOk) ∧
    (broadcastPass conns).2.1 = conns.filter (fun c => !c.sendOk) ∧
    (broadcastPass conns).2.2 = conns.filter (fun c => c.sendOk) ∧
    (broadcastPass conns).1.length + (broadcastPass conns).2.1.length
      = conns.length ∧
    ∀ c ∈ conns, c ∈ (broadcastPass conns).1 ∨ c ∈ (broadcastPass conns).2.1 := by
  have hacc : conns.foldl broadcastStep ([], [])
      = (conns.filter (fun c => c.sendOk), conns.filter (fun c => !c.sendOk)) := by
    simpa using foldl_broadcastStep conns [] []
  have h1 : (broadcastPass conns).1 = conns.filter (fun c => c.sendOk) := by
    simp [broadcastPass, hacc]
  have h2 : (broadcastPass conns).2.1 = conns.filter (fun c => !c.sendOk) := by
    simp [broadcastPass, hacc]
  have h3 : (broadcastPass conns).2.2 = conns.filter (fun c => c.sendOk) := by
    simp only [broadcastPass, hacc]
    exact foldl_removeFirst_filter conns hnd
  refine ⟨h1, h2, h3, ?_, ?_⟩
  · rw [h1, h2]
    have h := @List.length_eq_length_filter_add Observer conns (fun c => c.sendOk)
    simpa using h.symm
  · intro c hc
    by_cases hs : c.sendOk
    · exact Or.inl (by rw [h1]; exact List.mem_filter.mpr ⟨hc, by simp [hs]⟩)
    · exact Or.inr (by rw [h2]; exact List.mem_filter.mpr ⟨hc, by simp [hs]⟩)

/-- C5 witness: three registered observers of which the second raises on
send — exactly two deliveries succeed and the registry drops from 3 to 2
after the pass. -/
theorem broadcast_attempts_all_prunes_failures_witness :
    ([obs1, obs2, obs3] : List Observer).Nodup ∧
    (broadcastPass [obs1, obs2, obs3]).1.length = 2 ∧
    (broadcastPass [obs1, obs2, obs3]).2.2.length = 2 ∧
    ([obs1, obs2, obs3] : List Observer).length = 3 := by
  have hnd : ([obs1, obs2, obs3] : List Observer).Nodup := by decide
  have h := broadcast_attempts_all_prunes_failures [obs1, obs2, obs3] hnd
  refine ⟨hnd, ?_, ?_, rfl⟩
  · rw [h.1]
    decide
  · rw [h.2.2.1]
    decide

/-- C9: the recommendation rules fire independently in fixed order and are
space-joined — the reading (temperature 85, vibration 2, pressure None,
efficiency 90) produces exactly the cooling-system note and nothing else; a
reading firing all four rules produces the four notes space-joined in rule
order; and when no rule fires, the fallback message is keyed on the
severity status. -/
theorem recommendation_rules :
    generate_recommendation ⟨1, 85, 2, none, 85, 90⟩ "warning" = tempMsg ∧
    generate_recommendation ⟨1, 90, 8, some 150, 85, 70⟩ "critical"
      = tempMsg ++ " " ++ vibMsg ++ " " ++ pressMsg ++ " " ++ effMsg ∧
    generate_recommendation ⟨1, 70, 2, none, 85, 90⟩ "critical"
      = criticalFallback ∧
    generate_recommendation ⟨1, 70, 2, none, 85, 90⟩ "warning"
      = warningFallback :=
  ⟨rfl, rfl, rfl, rfl⟩

/-- Peeling the freshly stored row off the training history: the new row
always passes its own equipment filter. -/
theorem historicalFeatures_cons_self (now : Nat) (rest : List StoredReading)
    (r : SensorReading) :
    historicalFeatures (storedOf now r :: rest) r.equipment_id
      = featureRow (storedOf now r) ::
        ((rest.filter (fun x => x.equipment_id = r.equipment_id)).take 199).map
          featureRow := by
  unfold historicalFeatures
  rw [List.filter_cons_of_pos (by simp [storedOf]),
    show (200 : Nat) = 199 + 1 from rfl, List.take_succ_cons, List.map_cons]

/-- C10 counterexample: the persisted sensor_readings rows differ — a
pressure of exactly 0.0 is stored as 0.0 while an absent pressure is stored
as NULL, so the two ingestions do not have identical side effects. -/
theorem pressure_zero_stored_differs :
    (record_sensor_data fitInlier 0 1 stEmpty readingP0).1.readings.head?.map
        StoredReading.pressure
      ≠ (record_sensor_data fitInlier 0 1 stEmpty readingEq1).1.readings.head?.map
        StoredReading.pressure := by
  rw [record_readings, record_readings]
  simp [storedOf, readingP0, readingEq1, stEmpty]

/-- C10 amended: a pressure of exactly 0.0 and an absent pressure are
processed identically everywhere downstream of raw storage — same feature
vector fed to the model (pressure slot 0), the elevated-pressure rule fires
in neither, same recommendation, and ingesting from the same state returns
the same response and the same predictions, alerts, status map, detector and
feature-extracted history; the only divergent side effect is the persisted
raw reading row, which stores 0.0 versus NULL (both later coalesced to 0 by
feature extraction). -/
theorem pressure_zero_equiv (fit : List Feature → ModelParams) (now rd : Nat)
    (st : SystemState) (reading reading0 : SensorReading)
    (h0 : reading0.pressure = some 0)
    (hsame : reading = { reading0 with pressure := none }) :
    currentFeatures reading0 = currentFeatures reading ∧
    pressureRuleFires reading0.pressure = false ∧
    pressureRuleFires reading.pressure = false ∧
    (∀ status, generate_recommendation reading0 status
      = generate_recommendation reading status) ∧
    (record_sensor_data fit now rd st reading0).2
      = (record_sensor_data fit now rd st reading).2 ∧
    (record_sensor_data fit now rd st reading0).1.predictions
      = (record_sensor_data fit now rd st reading).1.predictions ∧
    (record_sensor_data fit now rd st reading0).1.alerts
      = (record_sensor_data fit now rd st reading).1.alerts ∧
    (record_sensor_data fit now rd st reading0).1.equipmentStatus
      = (record_sensor_data fit now rd st reading).1.equipmentStatus ∧
    (record_sensor_data fit now rd st reading0).1.detector
      = (record_sensor_data fit now rd st reading).1.detector ∧
    (record_sensor_data fit now rd st reading0).1.readings.map featureRow
      = (record_sensor_data fit now rd st reading).1.readings.map featureRow := by
  subst hsame
  have hcf : currentFeatures reading0
      = currentFeatures { reading0 with pressure := none } := by
    simp [currentFeatures, pyOrZero, h0]
  have hfr : featureRow (storedOf now reading0)
      = featureRow (storedOf now { reading0 with pressure := none }) := by
    simp [featureRow, storedOf, coalesceZero, h0]
  have hhist : historicalFeatures (storedOf now reading0 :: st.readings)
        reading0.equipment_id
      = historicalFeatures
        (storedOf now { reading0 with pressure := none } :: st.readings)
        ({ reading0 with pressure := none } : SensorReading).equipment_id := by
    rw [historicalFeatures_cons_self, historicalFeatures_cons_self, hfr]
  have hdet : detectorAfter fit now st reading0
      = detectorAfter fit now st { reading0 with pressure := none } := by
    simp only [detectorAfter]
    rw [hhist]
  have hsv : scoreVerdict fit now st reading0
      = scoreVerdict fit now st { reading0 with pressure := none } := by
    simp only [scoreVerdict]
    rw [hdet, hcf]
  have hpr0 : pressureRuleFires reading0.pressure = false := by
    simp [pressureRuleFires, h0]
  have hrec : ∀ status, generate_recommendation reading0 status
      = generate_recommendation { reading0 with pressure := none } status := by
    intro status
    simp [generate_recommendation, pressureRuleFires, h0]
  have hrdg : (record_sensor_data fit now rd st reading0).1.readings.map featureRow
      = (record_sensor_data fit now rd st
          { reading0 with pressure := none }).1.readings.map featureRow := by
    rw [record_readings, record_readings, List.map_cons, List.map_cons, hfr]
  refine ⟨hcf, hpr0, rfl, hrec, ?_, ?_, ?_, ?_, ?_, hrdg⟩ <;>
    · simp only [record_sensor_data, hsv, hdet, hrec, hfr]
      split <;> rfl

/-- C10 witness: the amended statement instantiated on the concrete pair of
readings (pressure 0.0 versus absent) in the fresh state. -/
theorem pressure_zero_equiv_witness :
    readingP0.pressure = some 0 ∧
    readingEq1 = { readingP0 with pressure := none } ∧
    currentFeatures readingP0 = currentFeatures readingEq1 ∧
    (record_sensor_data fitInlier 0 1 stEmpty readingP0).2
      = (record_sensor_data fitInlier 0 1 stEmpty readingEq1).2 := by
  have h := pressure_zero_equiv fitInlier 0 1 stEmpty readingEq1 readingP0 rfl rfl
  exact ⟨rfl, rfl, h.1, h.2.2.2.2.1⟩

end PredMaint
